import Mathlib

/-!
Shallow embedding of `src/main.py` (FastAPI + SQLAlchemy Books CRUD service).

The persistent store is modelled as a list of `Book` rows.  Each repository
operation of `BookRepository` (src/main.py lines 21-81) is embedded as a pure
function over that list.  Storage faults (connection errors, constraint
violations) are modelled by a boolean fault oracle passed to the operations
that can experience one inside their transactional scope; an operation that
propagates an exception instead of catching it is given an `Except` return
type.  The `asyncio.Semaphore(50)` concurrency gate is modelled separately as
a labelled transition system (see `SemState` below).
-/

namespace BooksApi

/-- Book entity (src/main.py lines 13-19): integer primary key `id`,
and three nullable text columns `title`, `author`, `genre`. -/
structure Book where
  id : Nat
  title : Option String
  author : Option String
  genre : Option String
deriving Repr, DecidableEq

/-- The persisted `books` table, as the list of its rows. -/
abbrev Db := List Book

/-- The `fields` mapping received by `BookRepository.update_book` via
`**fields` (src/main.py line 61): each attribute key is either absent from
the mapping (outer `none`) or present with a value that is itself either a
string or Python `None`, i.e. a SQL null (inner `Option String`). -/
structure Fields where
  title : Option (Option String)
  author : Option (Option String)
  genre : Option (Option String)
deriving Repr, DecidableEq

/-- Whether the mapping carries at least one key, as a Python dict would
report non-emptiness. -/
def Fields.nonempty (f : Fields) : Bool :=
  f.title.isSome || f.author.isSome || f.genre.isSome

/-- Effect of the bulk `update(Book).where(Book.id == id).values(fields)`
statement (src/main.py line 65) on a single matching row: every attribute
present in the mapping is overwritten (a Python `None` value writes null),
every absent attribute keeps its prior value; the primary key is untouched. -/
def applyFields (b : Book) (f : Fields) : Book :=
  { id := b.id
    title := f.title.getD b.title
    author := f.author.getD b.author
    genre := f.genre.getD b.genre }

/-- SQLAlchemy `.one_or_none()` (src/main.py line 57): empty result set gives
an explicit absent value, a single row gives it back, several rows raise. -/
def one_or_none (l : List Book) : Except Unit (Option Book) :=
  match l with
  | [] => .ok none
  | [b] => .ok (some b)
  | _ => .error ()

namespace BookRepository

/-- Server-assigned primary key for a freshly added row: SQLite's rowid
autoincrement assigns one more than the largest existing id (this models the
id assignment performed by `session.add(book)` + commit, src/main.py
lines 34-36). -/
def nextId (db : Db) : Nat := (db.map Book.id).foldr max 0 + 1

/-- `BookRepository.create_book` (src/main.py lines 31-41): inside the gate,
a `try` block builds the Book and adds it within one `session.begin()` scope,
returning `True` once the scope commits; on any storage fault the bare
`except` rolls back and returns `False`, leaving the table unchanged. -/
def create_book (db : Db) (title author genre : String) (fault : Bool) :
    Bool × Db :=
  if fault then
    (false, db)
  else
    (true, db ++ [{ id := nextId db, title := some title,
                    author := some author, genre := some genre }])

/-- `BookRepository.get_books` (src/main.py lines 43-50): selects every Book
row within a read-only scope. -/
def get_books (db : Db) : List Book := db

/-- `BookRepository.get_book_by_id` (src/main.py lines 52-59): selects the
rows matching the primary key and applies `.one_or_none()`. -/
def get_book_by_id (db : Db) (id : Nat) : Except Unit (Option Book) :=
  one_or_none (db.filter (fun b => b.id == id))

/-- `BookRepository.update_book` (src/main.py lines 61-71): inside the gate,
a `try` block executes one bulk update filtered by id and returns `True`
once the scope commits (no check that any row matched); on a storage fault
the bare `except` rolls back and returns `False`. -/
def update_book (db : Db) (id : Nat) (f : Fields) (fault : Bool) :
    Bool × Db :=
  if fault then
    (false, db)
  else
    (true, db.map (fun b => if b.id == id then applyFields b f else b))

/-- `BookRepository.delete_book` (src/main.py lines 73-78): no `try` block;
`session.delete(book)` on a Python `None` argument raises (unmapped
instance), any storage fault inside the scope propagates, and otherwise the
row with the entity's primary key is removed and `True` is returned. -/
def delete_book (db : Db) (book : Option Book) (fault : Bool) :
    Except Unit (Bool × Db) :=
  match book with
  | none => .error ()
  | some b =>
    if fault then .error ()
    else .ok (true, db.filter (fun x => x.id != b.id))

end BookRepository

/-- The `fields` dict built by the façade PUT route (src/main.py
lines 106-110): all three keys are always present, an unset query parameter
having defaulted to Python `None`. -/
def facade_update_fields (title author genre : Option String) : Fields :=
  { title := some title, author := some author, genre := some genre }

/-- Façade PUT route `update_book` (src/main.py lines 104-112): forwards the
always-three-key dict to the repository update. -/
def facade_update_book (db : Db) (id : Nat)
    (title author genre : Option String) (fault : Bool) : Bool × Db :=
  BookRepository.update_book db id (facade_update_fields title author genre)
    fault

/-- Façade DELETE route `delete_book` (src/main.py lines 114-117): looks the
entity up by id, then passes the lookup result — possibly Python `None` —
to the repository delete. -/
def facade_delete_book (db : Db) (id : Nat) (fault : Bool) :
    Except Unit (Bool × Db) :=
  match BookRepository.get_book_by_id db id with
  | .error _ => .error ()
  | .ok book => BookRepository.delete_book db book fault

/-! ### Concurrency gate

Model of `asyncio.Semaphore(50)` (src/main.py line 23) and of the
`async with self.semaphore:` block wrapping the body of each of the five
repository operations.  A task is one in-flight repository call; its phase
is before acquisition, inside the storage-facing critical section, or done.
`async with` releases the permit on every exit path, so the release
transition is available for every exit kind — normal return, application
error (the caught storage fault turned into a `False` return), or an
uncaught fault propagating out of the block. -/

/-- Which of the five repository operations a task is executing. -/
inductive OpKind
  | create
  | list
  | getById
  | updateOp
  | deleteOp
deriving Repr, DecidableEq

/-- Phase of one in-flight repository call with respect to the gate. -/
inductive Phase
  | waiting
  | critical
  | done
deriving Repr, DecidableEq

/-- How a critical section is exited; `async with` releases on all three. -/
inductive ExitKind
  | success
  | appError
  | fault
deriving Repr, DecidableEq

/-- One in-flight repository call. -/
structure SemTask where
  op : OpKind
  phase : Phase
deriving Repr, DecidableEq

/-- Gate state: available permits plus the phase of every in-flight call. -/
structure SemState where
  permits : Nat
  tasks : List SemTask
deriving Repr, DecidableEq

/-- Initial state for an arbitrary batch of concurrent repository calls:
the semaphore is fresh with its full 50 permits and every call is waiting
to acquire. -/
def SemState.init (ops : List OpKind) : SemState :=
  { permits := 50, tasks := ops.map (fun o => { op := o, phase := Phase.waiting }) }

/-- Number of calls currently inside their storage-facing critical
section. -/
def criticalCount (s : SemState) : Nat :=
  s.tasks.countP (fun t => t.phase == Phase.critical)

/-- Interleaving semantics of the gate: a waiting call may acquire only
when a permit is available (taking exactly one); a call in its critical
section releases its permit on exit, whichever way it exits. -/
inductive SemStep : SemState → SemState → Prop
  | acquire (s : SemState) (i : Nat) (t : SemTask)
      (hi : s.tasks[i]? = some t) (hw : t.phase = Phase.waiting)
      (hp : 0 < s.permits) :
      SemStep s { permits := s.permits - 1,
                  tasks := s.tasks.set i { op := t.op, phase := Phase.critical } }
  | release (s : SemState) (i : Nat) (t : SemTask) (e : ExitKind)
      (hi : s.tasks[i]? = some t) (hc : t.phase = Phase.critical) :
      SemStep s { permits := s.permits + 1,
                  tasks := s.tasks.set i { op := t.op, phase := Phase.done } }

/-- States reachable from a batch of concurrent repository calls. -/
inductive Reachable (ops : List OpKind) : SemState → Prop
  | init : Reachable ops (SemState.init ops)
  | step {s s' : SemState} : Reachable ops s → SemStep s s' → Reachable ops s'

/-! ### Process lifecycle

Engine-handle accounting for the module (src/main.py lines 83-86, 119-123,
141).  Each `BookRepository()` call runs `create_async_engine`, producing a
fresh engine handle; handles are numbered in allocation order.  At import
time, `Api(app).api()` (line 141) constructs the repository whose engine
every CRUD route uses; at lifespan startup `BookRepository().create_table()`
(line 121) constructs a second one and ensures the schema on it; at lifespan
shutdown `BookRepository().close()` (line 123) constructs a third one and
disposes that. -/

/-- `BookRepository.__init__` as an allocator of engine handles: returns the
new handle and the next free handle number. -/
def newEngine (next : Nat) : Nat × Nat := (next, next + 1)

/-- The three engine handles a process run touches. -/
structure ProcessHandles where
  apiEngine : Nat
  schemaEngine : Nat
  disposedEngine : Nat
deriving Repr, DecidableEq

/-- Handle allocation trace of one process run, in program order:
module import (`Api(app).api()`, line 141), then lifespan startup
(line 121), then lifespan shutdown (line 123). -/
def processHandles : ProcessHandles :=
  let a := newEngine 0
  let b := newEngine a.2
  let c := newEngine b.2
  { apiEngine := a.1, schemaEngine := b.1, disposedEngine := c.1 }

/-! ### Helper lemmas -/

lemma applyFields_id (b : Book) (f : Fields) : (applyFields b f).id = b.id :=
  rfl

lemma one_or_none_ok_some {l : List Book} {b : Book}
    (h : one_or_none l = .ok (some b)) : l = [b] := by
  match l with
  | [] => simp [one_or_none] at h
  | [x] =>
    simp [one_or_none] at h
    simp [h]
  | x :: y :: rest => simp [one_or_none] at h

lemma get_ok_some_filter {db : Db} {N : Nat} {b : Book}
    (h : BookRepository.get_book_by_id db N = .ok (some b)) :
    db.filter (fun x => x.id == N) = [b] :=
  one_or_none_ok_some h

lemma mem_of_get_ok_some {db : Db} {N : Nat} {b : Book}
    (h : BookRepository.get_book_by_id db N = .ok (some b)) :
    b ∈ db ∧ b.id = N := by
  have hf := get_ok_some_filter h
  have hb : b ∈ db.filter (fun x => x.id == N) := by
    rw [hf]; exact List.mem_singleton_self b
  have hm := List.mem_filter.mp hb
  exact ⟨hm.1, by simpa using hm.2⟩

lemma eq_of_mem_id_eq {db : Db} {N : Nat} {b : Book}
    (h : BookRepository.get_book_by_id db N = .ok (some b)) :
    ∀ x ∈ db, x.id = N → x = b := by
  intro x hx hid
  have hf := get_ok_some_filter h
  have hm : x ∈ db.filter (fun y => y.id == N) :=
    List.mem_filter.mpr ⟨hx, by simpa using hid⟩
  rw [hf] at hm
  simpa using hm

lemma le_foldr_max {a : Nat} : ∀ {l : List Nat}, a ∈ l → a ≤ l.foldr max 0 := by
  intro l
  induction l with
  | nil => intro h; cases h
  | cons x xs ih =>
    intro h
    rcases List.mem_cons.mp h with rfl | h
    · exact le_max_left a (xs.foldr max 0)
    · exact le_trans (ih h) (le_max_right x (xs.foldr max 0))

lemma id_lt_nextId {db : Db} {b : Book} (hb : b ∈ db) :
    b.id < BookRepository.nextId db := by
  have hm : b.id ∈ db.map Book.id := List.mem_map_of_mem Book.id hb
  have hle := le_foldr_max hm
  simp only [BookRepository.nextId]
  omega

lemma get_after_update {db : Db} {N : Nat} {b : Book} (f : Fields)
    (h : BookRepository.get_book_by_id db N = .ok (some b)) :
    BookRepository.get_book_by_id (BookRepository.update_book db N f false).2 N
      = .ok (some (applyFields b f)) := by
  have hf := get_ok_some_filter h
  have hbid : b.id = N := (mem_of_get_ok_some h).2
  have hcong : db.filter ((fun x : Book => x.id == N) ∘
      (fun x => if x.id == N then applyFields x f else x)) =
      db.filter (fun x : Book => x.id == N) := by
    apply List.filter_congr
    intro x _
    by_cases hx : x.id = N
    · simp [Function.comp, hx, applyFields]
    · simp [Function.comp, hx]
  show one_or_none ((db.map fun x =>
      if x.id == N then applyFields x f else x).filter (fun x => x.id == N))
    = .ok (some (applyFields b f))
  rw [List.filter_map, hcong, hf]
  simp [one_or_none, hbid]

lemma countP_set {α : Type} (p : α → Bool) :
    ∀ (l : List α) (i : Nat) (a b : α), l[i]? = some a →
      (l.set i b).countP p + (if p a then 1 else 0)
        = l.countP p + (if p b then 1 else 0) := by
  intro l
  induction l with
  | nil => intro i a b h; simp at h
  | cons x xs ih =>
    intro i a b h
    cases i with
    | zero =>
      simp at h
      subst h
      simp [List.countP_cons]
      omega
    | succ j =>
      simp at h
      have hj := ih j a b h
      simp [List.set, List.countP_cons]
      omega

lemma sem_inv {ops : List OpKind} {s : SemState} (h : Reachable ops s) :
    s.permits + criticalCount s = 50 := by
  induction h with
  | init =>
    have h0 : ((ops.map fun o => SemTask.mk o Phase.waiting).countP
        (fun t => t.phase == Phase.critical)) = 0 := by
      rw [List.countP_eq_zero]
      intro t ht
      rcases List.mem_map.mp ht with ⟨o, _, rfl⟩
      simp
    simp [SemState.init, criticalCount, h0]
  | step hr hs ih =>
    rename_i s s'
    cases hs with
    | acquire i t hi hw hp =>
      have hc := countP_set (fun u => u.phase == Phase.critical) s.tasks i t
        { op := t.op, phase := Phase.critical } hi
      simp [hw] at hc
      simp [criticalCount] at ih ⊢
      omega
    | release i t e hi hcr =>
      have hc := countP_set (fun u => u.phase == Phase.critical) s.tasks i t
        { op := t.op, phase := Phase.done } hi
      simp [hcr] at hc
      simp [criticalCount] at ih ⊢
      omega

/-! ### Claim theorems -/

/-- C1: every repository operation holds exactly one permit of the
50-capacity gate for its critical section and releases it on every exit
kind, so in every state reachable from any batch of concurrent repository
calls — of any size and any mix of the five operations — at most 50 calls
are simultaneously inside their storage-facing critical section. -/
theorem semaphore_concurrency_bound (ops : List OpKind) (s : SemState)
    (h : Reachable ops s) : criticalCount s ≤ 50 := by
  have hinv := sem_inv h
  omega

theorem semaphore_concurrency_bound_witness :
    criticalCount (SemState.init (List.replicate 100 OpKind.create)) ≤ 50 :=
  semaphore_concurrency_bound (List.replicate 100 OpKind.create)
    (SemState.init (List.replicate 100 OpKind.create)) Reachable.init

/-- C2: for a stored Book fetched under id `N`, a repository update with any
partial field mapping followed by `get_book_by_id N` returns `true` for the
update and a Book in which every attribute present in the mapping carries
the new value and every attribute absent from the mapping retains its prior
value (for a single-field mapping, only that field changes). -/
theorem update_then_get_frame (db : Db) (N : Nat) (f : Fields) (b : Book)
    (h : BookRepository.get_book_by_id db N = .ok (some b)) :
    (BookRepository.update_book db N f false).1 = true ∧
    BookRepository.get_book_by_id (BookRepository.update_book db N f false).2 N
      = .ok (some { id := b.id,
                    title := f.title.getD b.title,
                    author := f.author.getD b.author,
                    genre := f.genre.getD b.genre }) :=
  ⟨rfl, get_after_update f h⟩

theorem update_then_get_frame_witness :
    BookRepository.get_book_by_id
        [{ id := 1, title := some "Dune", author := some "Herbert",
           genre := some "SciFi" }] 1 =
      .ok (some { id := 1, title := some "Dune", author := some "Herbert",
                  genre := some "SciFi" }) ∧
    BookRepository.get_book_by_id
        (BookRepository.update_book
          [{ id := 1, title := some "Dune", author := some "Herbert",
             genre := some "SciFi" }] 1
          { title := none, author := none, genre := some (some "Epic") }
          false).2 1
      = .ok (some { id := 1, title := some "Dune", author := some "Herbert",
                    genre := some "Epic" }) :=
  ⟨rfl,
    (update_then_get_frame
      [{ id := 1, title := some "Dune", author := some "Herbert",
         genre := some "SciFi" }] 1
      { title := none, author := none, genre := some (some "Epic") }
      { id := 1, title := some "Dune", author := some "Herbert",
        genre := some "SciFi" } rfl).2⟩

/-- C3: the façade PUT route always passes all three optional attributes
into the bulk update, mapping each unset one to Python `None`, so the
executed update writes null for every unset attribute instead of leaving it
unchanged: after a façade update of a stored Book, every attribute equals
exactly the (possibly unset) request value. -/
theorem facade_update_nulls_unset (db : Db) (N : Nat)
    (t a g : Option String) (b : Book)
    (h : BookRepository.get_book_by_id db N = .ok (some b)) :
    facade_update_fields t a g
      = { title := some t, author := some a, genre := some g } ∧
    (facade_update_book db N t a g false).1 = true ∧
    BookRepository.get_book_by_id (facade_update_book db N t a g false).2 N
      = .ok (some { id := b.id, title := t, author := a, genre := g }) :=
  ⟨rfl, rfl, get_after_update (facade_update_fields t a g) h⟩

theorem facade_update_nulls_unset_witness :
    BookRepository.get_book_by_id
        [{ id := 1, title := some "Dune", author := some "Herbert",
           genre := some "SciFi" }] 1 =
      .ok (some { id := 1, title := some "Dune", author := some "Herbert",
                  genre := some "SciFi" }) ∧
    BookRepository.get_book_by_id
        (facade_update_book
          [{ id := 1, title := some "Dune", author := some "Herbert",
             genre := some "SciFi" }] 1 none none (some "Epic") false).2 1
      = .ok (some { id := 1, title := none, author := none,
                    genre := some "Epic" }) :=
  ⟨rfl,
    (facade_update_nulls_unset
      [{ id := 1, title := some "Dune", author := some "Herbert",
         genre := some "SciFi" }] 1 none none (some "Epic")
      { id := 1, title := some "Dune", author := some "Herbert",
        genre := some "SciFi" } rfl).2.2⟩

/-- C4: `create_book` returns `true` exactly when its transactional scope
commits, appending the new row; on any storage fault the scope is rolled
back, the fault is discarded rather than propagated (the function still
returns, with `false`), and the table is unchanged by the call. -/
theorem create_book_error_model (db : Db) (t a g : String) :
    BookRepository.create_book db t a g false
      = (true, db ++ [{ id := BookRepository.nextId db, title := some t,
                        author := some a, genre := some g }]) ∧
    BookRepository.create_book db t a g true = (false, db) :=
  ⟨rfl, rfl⟩

/-- C5: updating an id that matches no stored row with a non-empty field
mapping leaves every stored Book unchanged — the bulk update filtered by id
affects zero rows — and still returns `true`. -/
theorem update_book_nonexistent_id (db : Db) (N : Nat) (f : Fields)
    (hne : f.nonempty = true)
    (habs : ∀ b ∈ db, b.id ≠ N) :
    BookRepository.update_book db N f false = (true, db) := by
  have hmap : db.map (fun x => if x.id == N then applyFields x f else x)
      = db := by
    conv_rhs => rw [← List.map_id db]
    apply List.map_congr_left
    intro x hx
    have hb : (x.id == N) = false := by simpa using habs x hx
    simp [hb]
  show (true, db.map fun x => if x.id == N then applyFields x f else x)
    = (true, db)
  rw [hmap]

theorem update_book_nonexistent_id_witness :
    BookRepository.update_book
        [{ id := 1, title := some "Dune", author := some "Herbert",
           genre := some "SciFi" }] 2
        { title := some (some "Other"), author := none, genre := none } false
      = (true, [{ id := 1, title := some "Dune", author := some "Herbert",
                  genre := some "SciFi" }]) :=
  update_book_nonexistent_id
    [{ id := 1, title := some "Dune", author := some "Herbert",
       genre := some "SciFi" }] 2
    { title := some (some "Other"), author := none, genre := none }
    (by decide) (by decide)

/-- C6: deleting a Book previously fetched via `get_book_by_id` removes
that row — a subsequent lookup of its id is explicitly absent — while every
other stored Book remains stored and nothing else is in the table. -/
theorem delete_book_removes_fetched (db : Db) (N : Nat) (b : Book)
    (h : BookRepository.get_book_by_id db N = .ok (some b)) :
    ∃ db', BookRepository.delete_book db (some b) false = .ok (true, db') ∧
      BookRepository.get_book_by_id db' N = .ok none ∧
      (∀ x ∈ db, x ≠ b → x ∈ db') ∧
      (∀ x ∈ db', x ∈ db ∧ x ≠ b) := by
  have hbid : b.id = N := (mem_of_get_ok_some h).2
  refine ⟨db.filter (fun x => x.id != b.id), rfl, ?_, ?_, ?_⟩
  · have hnil : (db.filter (fun x => x.id != b.id)).filter
        (fun x => x.id == N) = [] := by
      rw [List.filter_filter]
      rw [List.filter_eq_nil_iff]
      intro x hx
      simp only [Bool.and_eq_true, beq_iff_eq, bne_iff_ne, ne_eq, not_and]
      intro h1 h2
      exact h2 (h1.trans hbid.symm)
    show one_or_none ((db.filter (fun x => x.id != b.id)).filter
        (fun x => x.id == N)) = .ok none
    rw [hnil]
    rfl
  · intro x hx hne
    have hxid : x.id ≠ b.id := by
      intro he
      exact hne (eq_of_mem_id_eq h x hx (he.trans hbid))
    exact List.mem_filter.mpr ⟨hx, by simpa using hxid⟩
  · intro x hx
    have hm := List.mem_filter.mp hx
    refine ⟨hm.1, ?_⟩
    intro he
    subst he
    simp at hm

theorem delete_book_removes_fetched_witness :
    ∃ db', BookRepository.delete_book
        [{ id := 1, title := some "Dune", author := some "Herbert",
           genre := some "SciFi" },
         { id := 2, title := some "Emma", author := some "Austen",
           genre := some "Novel" }]
        (some { id := 1, title := some "Dune", author := some "Herbert",
                genre := some "SciFi" }) false = .ok (true, db') ∧
      BookRepository.get_book_by_id db' 1 = .ok none ∧
      (∀ x ∈ ([{ id := 1, title := some "Dune", author := some "Herbert",
                 genre := some "SciFi" },
               { id := 2, title := some "Emma", author := some "Austen",
                 genre := some "Novel" }] : Db),
        x ≠ { id := 1, title := some "Dune", author := some "Herbert",
              genre := some "SciFi" } → x ∈ db') ∧
      (∀ x ∈ db',
        x ∈ ([{ id := 1, title := some "Dune", author := some "Herbert",
                genre := some "SciFi" },
              { id := 2, title := some "Emma", author := some "Austen",
                genre := some "Novel" }] : Db) ∧
        x ≠ { id := 1, title := some "Dune", author := some "Herbert",
              genre := some "SciFi" }) :=
  delete_book_removes_fetched
    [{ id := 1, title := some "Dune", author := some "Herbert",
       genre := some "SciFi" },
     { id := 2, title := some "Emma", author := some "Austen",
       genre := some "Novel" }] 1
    { id := 1, title := some "Dune", author := some "Herbert",
      genre := some "SciFi" } rfl

/-- C7: after a successful `create_book`, looking up the server-assigned id
of the new row returns a Book whose title, author and genre are exactly the
created values. -/
theorem create_then_get_roundtrip (db : Db) (t a g : String) :
    (BookRepository.create_book db t a g false).1 = true ∧
    BookRepository.get_book_by_id (BookRepository.create_book db t a g false).2
      (BookRepository.nextId db)
      = .ok (some { id := BookRepository.nextId db, title := some t,
                    author := some a, genre := some g }) := by
  refine ⟨rfl, ?_⟩
  have hnil : db.filter (fun x => x.id == BookRepository.nextId db) = [] := by
    rw [List.filter_eq_nil_iff]
    intro x hx
    have hlt := id_lt_nextId hx
    simp only [beq_iff_eq]
    omega
  show one_or_none ((db ++
      [(⟨BookRepository.nextId db, some t, some a, some g⟩ : Book)]).filter
      (fun x => x.id == BookRepository.nextId db))
    = .ok (some { id := BookRepository.nextId db, title := some t,
                  author := some a, genre := some g })
  rw [List.filter_append, hnil]
  simp [one_or_none]

/-- C8: looking up an id that matches no stored row returns the explicit
absent value `.ok none` — a normal outcome, not an error. -/
theorem get_book_by_id_absent (db : Db) (N : Nat)
    (habs : ∀ b ∈ db, b.id ≠ N) :
    BookRepository.get_book_by_id db N = .ok none := by
  have hnil : db.filter (fun x => x.id == N) = [] := by
    rw [List.filter_eq_nil_iff]
    intro x hx
    simpa using habs x hx
  show one_or_none (db.filter (fun x => x.id == N)) = .ok none
  rw [hnil]
  rfl

theorem get_book_by_id_absent_witness :
    BookRepository.get_book_by_id
        [{ id := 1, title := some "Dune", author := some "Herbert",
           genre := some "SciFi" }] 99 = .ok none :=
  get_book_by_id_absent
    [{ id := 1, title := some "Dune", author := some "Herbert",
       genre := some "SciFi" }] 99 (by decide)

/-- C9 counterexample: the claim that the engine handle whose schema is
ensured at startup, the handle used by the CRUD routes, and the handle
disposed at shutdown are one and the same is false for the allocation trace
of `src/main.py` (lines 83-86, 119-123, 141). -/
theorem single_engine_handle_refuted :
    ¬(processHandles.schemaEngine = processHandles.apiEngine ∧
      processHandles.disposedEngine = processHandles.apiEngine) := by
  decide

/-- C9 amended: one process run allocates three distinct engine handles —
the import-time handle used by every CRUD route for the process lifetime,
a second fresh handle on which lifespan startup ensures the schema, and a
third fresh handle which is the one lifespan shutdown disposes. -/
theorem three_distinct_engine_handles :
    processHandles.apiEngine ≠ processHandles.schemaEngine ∧
    processHandles.apiEngine ≠ processHandles.disposedEngine ∧
    processHandles.schemaEngine ≠ processHandles.disposedEngine := by
  decide

/-- C10: `delete_book` has no failure branch: whenever it returns a value
it returns `true`; a Python `None` argument — what the façade passes after
a failed lookup — or any storage fault makes it propagate an exception
instead, unlike `create_book` and `update_book`, which convert faults into
a `false` return. -/
theorem delete_book_no_failure_branch (db : Db) (ob : Option Book)
    (fault : Bool) (r : Bool) (db' : Db)
    (h : BookRepository.delete_book db ob fault = .ok (r, db')) :
    r = true ∧
    (∀ fl : Bool, BookRepository.delete_book db none fl = .error ()) ∧
    (∀ N fl, BookRepository.get_book_by_id db N = .ok none →
      facade_delete_book db N fl = .error ()) ∧
    (∀ t a g, BookRepository.create_book db t a g true = (false, db)) ∧
    (∀ N f, BookRepository.update_book db N f true = (false, db)) := by
  refine ⟨?_, fun fl => rfl, ?_, fun t a g => rfl, fun N f => rfl⟩
  · match ob with
    | none => simp [BookRepository.delete_book] at h
    | some b =>
      match fault with
      | true => simp [BookRepository.delete_book] at h
      | false =>
        rw [show BookRepository.delete_book db (some b) false
            = .ok (true, db.filter (fun x => x.id != b.id)) from rfl] at h
        injection h with h1
        injection h1 with h2 h3
        exact h2.symm
  · intro N fl hget
    unfold facade_delete_book
    rw [hget]
    rfl

theorem delete_book_no_failure_branch_witness :
    true = true ∧
    BookRepository.delete_book
      [{ id := 1, title := some "Dune", author := some "Herbert",
         genre := some "SciFi" }] none false = .error () := by
  have hh := delete_book_no_failure_branch
    [{ id := 1, title := some "Dune", author := some "Herbert",
       genre := some "SciFi" }]
    (some { id := 1, title := some "Dune", author := some "Herbert",
            genre := some "SciFi" }) false true [] rfl
  exact ⟨hh.1, hh.2.1 false⟩

end BooksApi
